import Mathlib

/-!
# SlimeVR Wrangler: verification of the UI core (`src/main.rs`)

Shallow embedding of the application state, message handler and
presentation helpers of `src/main.rs`, together with models of the
pieces of the repository (the `settings`, `joycon` and
`steam_blacklist` modules) that are referenced but not present in the
source tree; those models are taken from the specification and each
carries a doc comment saying so.
-/

namespace Wrangler

/-! ## Rust numeric primitives -/

/-- Smallest value of Rust's `i32`. -/
def i32Min : Int := -(2 ^ 31)

/-- Largest value of Rust's `i32`. -/
def i32Max : Int := 2 ^ 31 - 1

/-- Truncation of a rational toward zero, the rounding used by Rust's
float-to-integer `as` casts (floats are modelled as rationals). -/
def ratTrunc (q : ℚ) : Int := if q < 0 then ⌈q⌉ else ⌊q⌋

/-- Rust's saturating `f as i32` cast on the rational model of `f`. -/
def asI32 (q : ℚ) : Int :=
  if ratTrunc q < i32Min then i32Min
  else if i32Max < ratTrunc q then i32Max
  else ratTrunc q

/-- Rust's `i32::rem_euclid`: remainder in `[0, |m|)` for `m ≠ 0`. -/
def remEuclid (a m : Int) : Int := a.emod m

/-! ## Data model: device status (from `joycon` re-exports used in `main.rs`) -/

/-- Battery level enum (`joycon::Battery`). -/
inductive Battery
  | Empty | Critical | Low | Medium | Full
  deriving DecidableEq, Repr

/-- Device health enum (`joycon::DeviceStatus`). -/
inductive DeviceStatus
  | Disconnected | NoIMU | LaggyIMU | Healthy
  deriving DecidableEq, Repr

/-- Server connectivity enum (`joycon::ServerStatus`). -/
inductive ServerStatus
  | Connected | Disconnected
  deriving DecidableEq, Repr

/-- Modelled from the spec: the worker "fails closed and reports
disconnected", so the `Default` of `ServerStatus` (used by
`#[derive(Default)]` on `MainState`) is `Disconnected`. -/
def ServerStatus.default : ServerStatus := .Disconnected

/-- One per-device status record (`joycon::Status`), as consumed by
`main.rs`: serial number, design (opaque here), battery, health and the
raw orientation triple `(roll, pitch, yaw)` in degrees, with the float
components modelled as rationals. -/
structure Status where
  serial_number : String
  design : String
  battery : Battery
  status : DeviceStatus
  rotation : ℚ × ℚ × ℚ
  deriving DecidableEq, Repr

/-! ## Configuration store (modelled from the spec: `settings` module) -/

/-- Per-device tuning pair kept in the configuration. -/
structure JoyconConfig where
  rotation : Int
  scale : ℚ
  deriving DecidableEq, Repr

/-- Modelled from the spec: unknown device identifiers default to
`{offset: 0, scale: 1.0}` lazily on first access. -/
def JoyconConfig.default : JoyconConfig := ⟨0, 1⟩

/-- Modelled from the spec: the user-editable configuration record of
the `settings` module — a per-serial map of tuning pairs plus the
process-wide flags `{address, send_reset, keep_ids}`. The map is
total with the lazy default baked in. -/
structure WranglerSettings where
  address : String
  send_reset : Bool
  keep_ids : Bool
  joycon : String → JoyconConfig

/-- Modelled from the spec: initial configuration at process start,
with no per-device entries populated. -/
def WranglerSettings.default : WranglerSettings :=
  ⟨"", false, false, fun _ => JoyconConfig.default⟩

/-- Modelled from the spec: `joycon_rotation_get` — the stored rotation
offset for a serial, defaulting to 0. -/
def WranglerSettings.joycon_rotation_get (ws : WranglerSettings) (sn : String) : Int :=
  (ws.joycon sn).rotation

/-- Modelled from the spec: `joycon_scale_get` — the stored scale for a
serial, defaulting to 1.0. -/
def WranglerSettings.joycon_scale_get (ws : WranglerSettings) (sn : String) : ℚ :=
  (ws.joycon sn).scale

/-- Modelled from the spec: `joycon_rotation_add` adds a delta to the
stored per-device rotation offset and normalizes the result into
`[0, 360)` ("rotation offset is always normalized into [0, 360)"). -/
def WranglerSettings.joycon_rotation_add
    (ws : WranglerSettings) (sn : String) (degrees : Int) : WranglerSettings :=
  { ws with
    joycon := fun s =>
      if s = sn then
        { ws.joycon s with rotation := remEuclid ((ws.joycon s).rotation + degrees) 360 }
      else ws.joycon s }

/-- Clamp of a scale value to `[0.8, 1.2]` (Rust `f64::clamp`). -/
def clampScale (v : ℚ) : ℚ :=
  if v < 4/5 then 4/5 else if 6/5 < v then 6/5 else v

/-- Modelled from the spec: `joycon_scale_set` stores a scale value,
"always clamped to [0.8, 1.2]". -/
def WranglerSettings.joycon_scale_set
    (ws : WranglerSettings) (sn : String) (scale : ℚ) : WranglerSettings :=
  { ws with
    joycon := fun s =>
      if s = sn then { ws.joycon s with scale := clampScale scale }
      else ws.joycon s }

/-- Modelled from the spec: `get_socket_address` returns the configured
address when it is usable as an `ip:port` socket address and the
default `127.0.0.1:6969` otherwise; the parse itself is out of scope,
abstracted here as a nonempty check. -/
def WranglerSettings.get_socket_address (ws : WranglerSettings) : String :=
  if ws.address = "" then "127.0.0.1:6969" else ws.address

/-! ## Status bridge (modelled from the spec: `joycon::Wrapper` polls) -/

/-- Modelled from the spec: one slot of the status bridge. The slot
holds the latest published value when it has not yet been seen by the
consumer; polling takes it, so a value is delivered exactly once and
further polls return the "no update" signal until the next publish. -/
def pollSlot (slot : Option α) : Option α × Option α := (slot, none)

/-- Publishing into a slot overwrites it with the new value. -/
def publishSlot (v : α) (_slot : Option α) : Option α := some v

/-- Modelled from the spec: the pair of independently-updated slots of
the status bridge owned by `joycon::Wrapper` — device statuses and
server connectivity. -/
structure Bridge where
  statusSlot : Option (List Status)
  serverSlot : Option ServerStatus
  deriving DecidableEq, Repr

/-- Modelled from the spec: a fresh wrapper has published nothing yet. -/
def Bridge.new : Bridge := ⟨none, none⟩

/-- `poll_status`: non-blocking read of the statuses slot, returning
the value exactly once. The returned bridge is the wrapper's interior
state after the poll. -/
def Bridge.poll_status (b : Bridge) : Option (List Status) × Bridge :=
  ((pollSlot b.statusSlot).1, { b with statusSlot := (pollSlot b.statusSlot).2 })

/-- `poll_server`: non-blocking read of the connectivity slot. -/
def Bridge.poll_server (b : Bridge) : Option ServerStatus × Bridge :=
  ((pollSlot b.serverSlot).1, { b with serverSlot := (pollSlot b.serverSlot).2 })

/-- `publish` of a statuses snapshot by the device worker. -/
def Bridge.publish_status (b : Bridge) (v : List Status) : Bridge :=
  { b with statusSlot := publishSlot v b.statusSlot }

/-- `publish` of a connectivity flag by the device worker. -/
def Bridge.publish_server (b : Bridge) (v : ServerStatus) : Bridge :=
  { b with serverSlot := publishSlot v b.serverSlot }

/-! ## Advisory task results (modelled from the spec: `steam_blacklist`) -/

/-- Modelled from the spec: the result record of the blacklist check as
used by `main.rs` — a message shown in the banner and whether the fix
button is offered. A failed check is an empty result, never an error. -/
structure BlacklistResult where
  info : String
  fix_button : Bool
  deriving DecidableEq, Repr

/-- Default (empty) blacklist result. -/
def BlacklistResult.default : BlacklistResult := ⟨"", false⟩

/-- `BlacklistResult::info(..)`: an info-only result with no fix button
(constructor spelled `mkInfo` because the field is already `info`). -/
def BlacklistResult.mkInfo (s : String) : BlacklistResult := ⟨s, false⟩

/-! ## Needles and presentation (`main.rs`) -/

/-- A needle canvas for one integer degree (`needle::Needle`); its only
datum relevant here is the degree it was built from. -/
structure Needle where
  deg : Int
  deriving DecidableEq, Repr

/-- `Needle::new`. -/
def Needle.new (d : Int) : Needle := ⟨d⟩

/-- The container of per-device boxes (`JoyconBoxes` in `main.rs`):
the latest statuses snapshot and the 360 pre-built needles. The SVG
handler carries no data relevant to the claims and is omitted. -/
structure JoyconBoxes where
  statuses : List Status
  needles : List Needle

/-- `JoyconBoxes::default`: no statuses, needles for 0..359. -/
def JoyconBoxes.default : JoyconBoxes :=
  ⟨[], (List.range 360).map (fun n => Needle.new (Int.ofNat n))⟩

/-- The needle index computed in `single_box_view` for one displayed
orientation component: `(val as i32).rem_euclid(360)`. -/
def needleIndex (val : ℚ) : Int := remEuclid (asI32 val) 360

/-- The needle lookup of `single_box_view`:
`needles.get(ival).unwrap_or_else(|| &needles[0])`, with the panicking
`&needles[0]` fallback modelled by a default needle (the fallback is
proved unreachable for the actual needle vector). -/
def needleLookup (needles : List Needle) (ival : Nat) : Needle :=
  match needles[ival]? with
  | some n => n
  | none => needles[0]?.getD (Needle.new 0)

/-- The data presented for one device box by `single_box_view`: the
three labelled needle indices (roll, pitch and negated yaw, each cast
to `i32` and reduced `rem_euclid 360`), the mount rotation passed to
the SVG, and the scale shown by the slider. -/
structure BoxView where
  values : List (String × Int)
  svgRotation : Int
  scaleShown : ℚ
  serial : String
  deriving DecidableEq, Repr

/-- `single_box_view` (presentation-relevant fields): pure function of
the status and the tuning passed in; it never writes the status. -/
def single_box_view (status : Status) (scale : ℚ) (mount_rot : Int) : BoxView :=
  { values :=
      [("Roll", status.rotation.1), ("Pitch", status.rotation.2.1),
        ("Yaw", -status.rotation.2.2)].map
        (fun p => (p.1, needleIndex p.2))
    svgRotation := mount_rot
    scaleShown := scale
    serial := status.serial_number }

/-- `JoyconBoxes::view`: one box per status, with the scale and mount
rotation read from the settings snapshot for that serial. -/
def JoyconBoxes.view (boxes : JoyconBoxes) (settings : WranglerSettings) : List BoxView :=
  boxes.statuses.map (fun status =>
    single_box_view status
      (settings.joycon_scale_get status.serial_number)
      (settings.joycon_rotation_get status.serial_number))

/-! ## Messages, commands and the application state (`main.rs`) -/

/-- The `Message` enum of `main.rs`. The `Instant` payloads of `Tick`
and `Dot` are unused by `update` and omitted; float payloads are
rationals. -/
inductive Message
  | SettingsPressed
  | Tick
  | Dot
  | AddressChange (value : String)
  | UpdateFound (version : Option String)
  | UpdatePressed
  | BlacklistChecked (info : BlacklistResult)
  | BlacklistFixPressed
  | JoyconRotate (serial : String) (direction : Bool)
  | JoyconScale (serial : String) (scale : ℚ)
  | SettingsResetToggled (b : Bool)
  | SettingsIdsToggled (b : Bool)
  deriving DecidableEq, Repr

/-- The asynchronous commands `main.rs` can return to the runtime:
`Command::perform(update::check_updates(), UpdateFound)`,
`Command::perform(blacklist::check_blacklist(), BlacklistChecked)` and
`Command::perform(blacklist::update_blacklist(), BlacklistChecked)`.
`Command::none()` is the empty list. -/
inductive Cmd
  | checkUpdates
  | checkBlacklist
  | updateBlacklist
  deriving DecidableEq, Repr

/-- The application state (`struct MainState`). The `joycon` field
holds the wrapper's bridge when the worker has been spawned; the
settings handler is modelled by the configuration it guards. -/
structure MainState where
  joycon : Option Bridge
  joycon_boxes : JoyconBoxes
  search_dots : Nat
  settings_show : Bool
  server_connected : ServerStatus
  server_address : String
  settings : WranglerSettings
  update_found : Option String
  blacklist_info : BlacklistResult

/-- `MainState::default()` (the `#[derive(Default)]`). -/
def MainState.default : MainState :=
  { joycon := none
    joycon_boxes := JoyconBoxes.default
    search_dots := 0
    settings_show := false
    server_connected := ServerStatus.default
    server_address := ""
    settings := WranglerSettings.default
    update_found := none
    blacklist_info := BlacklistResult.default }

/-- `MainState::new`: starts from the default state, spawns the worker
(a fresh bridge), renders the configured socket address once into
`server_address`, and issues the two startup advisory commands. -/
def MainState.new : MainState × List Cmd :=
  ({ MainState.default with
      joycon := some Bridge.new
      server_address := WranglerSettings.default.get_socket_address },
    [Cmd.checkUpdates, Cmd.checkBlacklist])

/-- `MainState::update`, arm for arm. `settings.change(f)` is the
serialized mutation of the configuration store; `update::update()` in
the `UpdatePressed` arm is an external side effect with no state or
command footprint here. -/
def MainState.update (s : MainState) (m : Message) : MainState × List Cmd :=
  match m with
  | .SettingsPressed => ({ s with settings_show := !s.settings_show }, [])
  | .Tick =>
      match s.joycon with
      | none => (s, [])
      | some ji =>
          let ps := ji.poll_status
          let boxes :=
            match ps.1 with
            | some res => { s.joycon_boxes with statuses := res }
            | none => s.joycon_boxes
          let pc := ps.2.poll_server
          let conn :=
            match pc.1 with
            | some connected => connected
            | none => s.server_connected
          ({ s with joycon := some pc.2, joycon_boxes := boxes, server_connected := conn }, [])
  | .Dot => ({ s with search_dots := (s.search_dots + 1) % 4 }, [])
  | .AddressChange value =>
      ({ s with settings := { s.settings with address := value } }, [])
  | .UpdateFound version => ({ s with update_found := version }, [])
  | .UpdatePressed => ({ s with update_found := none }, [])
  | .BlacklistChecked info => ({ s with blacklist_info := info }, [])
  | .BlacklistFixPressed =>
      ({ s with blacklist_info := BlacklistResult.mkInfo "Updating steam config file....." },
        [Cmd.updateBlacklist])
  | .JoyconRotate serial_number direction =>
      ({ s with settings :=
          s.settings.joycon_rotation_add serial_number (if direction then 90 else -90) }, [])
  | .JoyconScale serial_number scale =>
      ({ s with settings := s.settings.joycon_scale_set serial_number scale }, [])
  | .SettingsResetToggled new =>
      ({ s with settings := { s.settings with send_reset := new } }, [])
  | .SettingsIdsToggled new =>
      ({ s with settings := { s.settings with keep_ids := new } }, [])

/-- Fold a list of messages through `update`, discarding commands. -/
def runMessages (s : MainState) (ms : List Message) : MainState :=
  ms.foldl (fun st m => (st.update m).1) s

/-- Repeated consumer polls of the statuses slot: `pollStatusIter n b`
is the result of the `(n+1)`-st poll after `n` earlier polls from `b`. -/
def pollStatusIter : Nat → Bridge → Option (List Status) × Bridge
  | 0, b => b.poll_status
  | n + 1, b => pollStatusIter n (b.poll_status).2

/-- Repeated consumer polls of the connectivity slot. -/
def pollServerIter : Nat → Bridge → Option ServerStatus × Bridge
  | 0, b => b.poll_server
  | n + 1, b => pollServerIter n (b.poll_server).2

/-- The normalization invariant of the configuration: every stored
per-device rotation offset lies in `[0, 360)`. -/
def RotationNormalized (ws : WranglerSettings) : Prop :=
  ∀ sn, 0 ≤ (ws.joycon sn).rotation ∧ (ws.joycon sn).rotation < 360

/-- Concrete fixture: a status with raw orientation
`(roll, pitch, yaw) = (10, 20, 30)`. -/
def stC1 : Status :=
  ⟨"sn1", "left", Battery.Full, DeviceStatus.Healthy, (10, 20, 30)⟩

/-- Concrete fixture: configuration holding `{offset: 90, scale: 1.0}`
for that serial, reached through the mutation wrappers. -/
def wsC1 : WranglerSettings :=
  (WranglerSettings.default.joycon_scale_set "sn1" 1).joycon_rotation_add "sn1" 90

/-- Concrete fixture: box container holding just that status. -/
def boxesC1 : JoyconBoxes :=
  { JoyconBoxes.default with statuses := [stC1] }

/-! ## Helper lemmas -/

theorem remEuclid_nonneg (a : Int) : 0 ≤ remEuclid a 360 :=
  Int.emod_nonneg a (by norm_num)

theorem remEuclid_lt_360 (a : Int) : remEuclid a 360 < 360 :=
  Int.emod_lt_of_pos a (by norm_num)

theorem boxView_ext (a b : BoxView) (hv : a.values = b.values)
    (hr : a.svgRotation = b.svgRotation) (hs : a.scaleShown = b.scaleShown)
    (hn : a.serial = b.serial) : a = b := by
  cases a
  cases b
  simp_all

theorem clampScale_mem (v : ℚ) : 4/5 ≤ clampScale v ∧ clampScale v ≤ 6/5 := by
  unfold clampScale
  split
  · constructor <;> norm_num
  · split
    · constructor <;> norm_num
    · constructor <;> linarith

theorem update_preserves_rotation_normalized (s : MainState) (m : Message)
    (h : RotationNormalized s.settings) :
    RotationNormalized ((s.update m).1).settings := by
  cases m with
  | Tick =>
      simp only [MainState.update]
      split
      · exact h
      · exact h
  | JoyconRotate sn dir =>
      intro sn'
      simp only [MainState.update, WranglerSettings.joycon_rotation_add]
      by_cases hsn : sn' = sn
      · simp only [hsn, if_pos rfl]
        exact ⟨remEuclid_nonneg _, remEuclid_lt_360 _⟩
      · simp only [if_neg hsn]
        exact h sn'
  | JoyconScale sn v =>
      intro sn'
      simp only [MainState.update, WranglerSettings.joycon_scale_set]
      by_cases hsn : sn' = sn
      · simp only [hsn, if_pos rfl]
        exact h sn
      · simp only [if_neg hsn]
        exact h sn'
  | SettingsPressed => exact h
  | Dot => exact h
  | AddressChange value => exact h
  | UpdateFound version => exact h
  | UpdatePressed => exact h
  | BlacklistChecked info => exact h
  | BlacklistFixPressed => exact h
  | SettingsResetToggled b => exact h
  | SettingsIdsToggled b => exact h

theorem runMessages_preserves_rotation_normalized (ms : List Message) (s : MainState)
    (h : RotationNormalized s.settings) :
    RotationNormalized (runMessages s ms).settings := by
  induction ms generalizing s with
  | nil => exact h
  | cons m ms ih => exact ih _ (update_preserves_rotation_normalized s m h)

theorem pollStatusIter_of_empty (n : Nat) (b : Bridge) (h : b.statusSlot = none) :
    (pollStatusIter n b).1 = none := by
  induction n generalizing b with
  | zero => simp [pollStatusIter, Bridge.poll_status, pollSlot, h]
  | succ n ih => exact ih _ rfl

theorem pollServerIter_of_empty (n : Nat) (b : Bridge) (h : b.serverSlot = none) :
    (pollServerIter n b).1 = none := by
  induction n generalizing b with
  | zero => simp [pollServerIter, Bridge.poll_server, pollSlot, h]
  | succ n ih => exact ih _ rfl

/-! ## Claims -/

/-- **C2**: a consumer poll (`poll_status` or `poll_server`) with no
publish since the consumer's last poll returns the "no update" signal
`none` (this includes a fresh bridge and any state just polled); a poll
right after a publish returns the published value, exactly once: every
further poll returns `none` again until the next publish. -/
theorem poll_delivers_each_publish_exactly_once :
    ∀ (b : Bridge) (v : List Status) (c : ServerStatus) (n : Nat),
      (Bridge.new.poll_status).1 = none ∧
      (Bridge.new.poll_server).1 = none ∧
      ((b.publish_status v).poll_status).1 = some v ∧
      ((b.publish_server c).poll_server).1 = some c ∧
      (pollStatusIter n ((b.publish_status v).poll_status).2).1 = none ∧
      (pollServerIter n ((b.publish_server c).poll_server).2).1 = none ∧
      ((b.poll_status).2.poll_status).1 = none ∧
      ((b.poll_server).2.poll_server).1 = none :=
  fun _b _v _c n =>
    ⟨rfl, rfl, rfl, rfl, pollStatusIter_of_empty n _ rfl,
      pollServerIter_of_empty n _ rfl, rfl, rfl⟩

/-- **C3**: under any sequence of messages from the initial state (in
particular any sequence of `JoyconRotate` mutations, which add ±90 via
`joycon_rotation_add`), every stored per-device rotation offset stays
normalized in `[0, 360)`; and adding 90 to a stored offset of 300
yields 30, not 390. -/
theorem rotation_offsets_always_normalized :
    (∀ (ms : List Message) (sn : String),
        0 ≤ (runMessages MainState.default ms).settings.joycon_rotation_get sn ∧
        (runMessages MainState.default ms).settings.joycon_rotation_get sn < 360) ∧
    ((WranglerSettings.mk "" false false (fun _ => ⟨300, 1⟩)).joycon_rotation_add
        "a" 90).joycon_rotation_get "a" = 30 :=
  ⟨fun ms sn =>
      runMessages_preserves_rotation_normalized ms MainState.default
        (fun _ => by constructor <;> norm_num [MainState.default, WranglerSettings.default,
          JoyconConfig.default]) sn,
    by norm_num [WranglerSettings.joycon_rotation_add, WranglerSettings.joycon_rotation_get,
      remEuclid]⟩

/-- **C4**: a `JoyconScale` message stores, for the named serial, a
scale clamped into `[0.8, 1.2]`, whatever value the message carries;
setting `1.5` stores `1.2` and setting `0.5` stores `0.8`. -/
theorem scale_mutations_clamped :
    (∀ (s : MainState) (sn : String) (v : ℚ),
        4/5 ≤ ((s.update (Message.JoyconScale sn v)).1).settings.joycon_scale_get sn ∧
        ((s.update (Message.JoyconScale sn v)).1).settings.joycon_scale_get sn ≤ 6/5) ∧
    (WranglerSettings.default.joycon_scale_set "a" (3/2)).joycon_scale_get "a" = 6/5 ∧
    (WranglerSettings.default.joycon_scale_set "a" (1/2)).joycon_scale_get "a" = 4/5 := by
  refine ⟨fun s sn v => ?_, ?_, ?_⟩
  · simpa [MainState.update, WranglerSettings.joycon_scale_set,
      WranglerSettings.joycon_scale_get] using clampScale_mem v
  · norm_num [WranglerSettings.joycon_scale_set, WranglerSettings.joycon_scale_get,
      clampScale]
  · norm_num [WranglerSettings.joycon_scale_set, WranglerSettings.joycon_scale_get,
      clampScale]

theorem update_search_dots_lt (s : MainState) (m : Message) (h : s.search_dots < 4) :
    ((s.update m).1).search_dots < 4 := by
  cases m with
  | Tick =>
      simp only [MainState.update]
      split
      · exact h
      · exact h
  | Dot => exact Nat.mod_lt _ (by norm_num)
  | SettingsPressed => exact h
  | AddressChange value => exact h
  | UpdateFound version => exact h
  | UpdatePressed => exact h
  | BlacklistChecked info => exact h
  | BlacklistFixPressed => exact h
  | JoyconRotate sn dir => exact h
  | JoyconScale sn v => exact h
  | SettingsResetToggled b => exact h
  | SettingsIdsToggled b => exact h

theorem runMessages_search_dots_lt (ms : List Message) (s : MainState)
    (h : s.search_dots < 4) : (runMessages s ms).search_dots < 4 := by
  induction ms generalizing s with
  | nil => exact h
  | cons m ms ih => exact ih _ (update_search_dots_lt s m h)

theorem update_server_address_eq (s : MainState) (m : Message) :
    ((s.update m).1).server_address = s.server_address := by
  cases m with
  | Tick =>
      simp only [MainState.update]
      split
      · rfl
      · rfl
  | Dot => rfl
  | SettingsPressed => rfl
  | AddressChange value => rfl
  | UpdateFound version => rfl
  | UpdatePressed => rfl
  | BlacklistChecked info => rfl
  | BlacklistFixPressed => rfl
  | JoyconRotate sn dir => rfl
  | JoyconScale sn v => rfl
  | SettingsResetToggled b => rfl
  | SettingsIdsToggled b => rfl

theorem runMessages_server_address_eq (ms : List Message) (s : MainState) :
    (runMessages s ms).server_address = s.server_address := by
  induction ms generalizing s with
  | nil => rfl
  | cons m ms ih => exact (ih _).trans (update_server_address_eq s m)

/-- **C5**: a `Tick` returns no command and only ever writes
`joycon_boxes.statuses` and `server_connected`: every other field of
the state is unchanged (the wrapper handle stays present exactly when
it was); moreover when `poll_status` has no update the statuses are
unchanged, and when `poll_server` has no update the connectivity is
unchanged. -/
theorem tick_updates_only_polled_fields :
    ∀ s : MainState,
      (s.update Message.Tick).2 = [] ∧
      ((s.update Message.Tick).1).settings_show = s.settings_show ∧
      ((s.update Message.Tick).1).search_dots = s.search_dots ∧
      ((s.update Message.Tick).1).server_address = s.server_address ∧
      ((s.update Message.Tick).1).settings = s.settings ∧
      ((s.update Message.Tick).1).update_found = s.update_found ∧
      ((s.update Message.Tick).1).blacklist_info = s.blacklist_info ∧
      ((s.update Message.Tick).1).joycon_boxes.needles = s.joycon_boxes.needles ∧
      ((s.update Message.Tick).1).joycon.isSome = s.joycon.isSome ∧
      (∀ ji, s.joycon = some ji → ji.statusSlot = none →
          ((s.update Message.Tick).1).joycon_boxes.statuses = s.joycon_boxes.statuses) ∧
      (∀ ji, s.joycon = some ji → ji.serverSlot = none →
          ((s.update Message.Tick).1).server_connected = s.server_connected) := by
  intro s
  cases hj : s.joycon with
  | none =>
      simp [MainState.update, hj]
  | some ji =>
      refine ⟨?_, ?_, ?_, ?_, ?_, ?_, ?_, ?_, ?_, ?_, ?_⟩ <;>
        simp only [MainState.update, hj]
      · cases hs : ji.poll_status.1 <;> simp [hs]
      · rfl
      · intro ji' hji' hslot
        injection hji' with hji
        subst hji
        simp [Bridge.poll_status, pollSlot, hslot]
      · intro ji' hji' hslot
        injection hji' with hji
        subst hji
        simp [Bridge.poll_status, Bridge.poll_server, pollSlot, hslot]

theorem tick_updates_only_polled_fields_witness :
    ((MainState.new.1.update Message.Tick).1).joycon_boxes.statuses
        = MainState.new.1.joycon_boxes.statuses ∧
    ((MainState.new.1.update Message.Tick).1).server_connected
        = MainState.new.1.server_connected := by
  have h := tick_updates_only_polled_fields MainState.new.1
  exact ⟨h.2.2.2.2.2.2.2.2.2.1 Bridge.new rfl rfl,
    h.2.2.2.2.2.2.2.2.2.2 Bridge.new rfl rfl⟩

/-- **C6**: `JoyconRotate` and `JoyconScale` mutate only the
configuration store — the whole resulting state is the old one with
just `settings` replaced, so the stored raw statuses (with their
rotation triples) are untouched — and a rotate delegates exactly
`+90` (direction `true`) or `-90` (direction `false`) degrees to
`joycon_rotation_add`, whose effect on the stored offset is the
normalized sum; serials other than the named one keep their tuning. -/
theorem tuning_messages_mutate_only_config :
    ∀ (s : MainState) (sn : String) (dir : Bool) (v : ℚ),
      s.update (Message.JoyconRotate sn dir) =
        ({ s with settings :=
            s.settings.joycon_rotation_add sn (if dir then 90 else -90) }, []) ∧
      s.update (Message.JoyconScale sn v) =
        ({ s with settings := s.settings.joycon_scale_set sn v }, []) ∧
      ((s.update (Message.JoyconRotate sn dir)).1).joycon_boxes.statuses
          = s.joycon_boxes.statuses ∧
      ((s.update (Message.JoyconScale sn v)).1).joycon_boxes.statuses
          = s.joycon_boxes.statuses ∧
      ((s.update (Message.JoyconRotate sn dir)).1).settings.joycon_rotation_get sn
          = remEuclid (s.settings.joycon_rotation_get sn + (if dir then 90 else -90)) 360 ∧
      (∀ sn', sn' ≠ sn →
          ((s.update (Message.JoyconRotate sn dir)).1).settings.joycon sn'
              = s.settings.joycon sn' ∧
          ((s.update (Message.JoyconScale sn v)).1).settings.joycon sn'
              = s.settings.joycon sn') := by
  intro s sn dir v
  refine ⟨rfl, rfl, rfl, rfl, ?_, ?_⟩
  · simp [MainState.update, WranglerSettings.joycon_rotation_add,
      WranglerSettings.joycon_rotation_get]
  · intro sn' hsn
    constructor <;>
      simp [MainState.update, WranglerSettings.joycon_rotation_add,
        WranglerSettings.joycon_scale_set, hsn]

theorem tuning_messages_mutate_only_config_witness :
    ((MainState.default.update (Message.JoyconRotate "a" true)).1).settings.joycon "b"
        = MainState.default.settings.joycon "b" ∧
    ((MainState.default.update (Message.JoyconScale "a" 1)).1).settings.joycon "b"
        = MainState.default.settings.joycon "b" :=
  (tuning_messages_mutate_only_config MainState.default "a" true 1).2.2.2.2.2 "b"
    (by decide)

/-- **C7**: a `Dot` message maps the state to itself with
`search_dots` replaced by `(search_dots + 1) % 4` and returns no
command — no other field is touched — and from the default initial
state `search_dots` stays in `{0, 1, 2, 3}` under every message
sequence. -/
theorem dot_advances_cosmetic_counter_only :
    (∀ s : MainState,
        s.update Message.Dot =
          ({ s with search_dots := (s.search_dots + 1) % 4 }, [])) ∧
    (∀ ms : List Message, (runMessages MainState.default ms).search_dots < 4) :=
  ⟨fun _ => rfl,
    fun ms => runMessages_search_dots_lt ms MainState.default (by norm_num [MainState.default])⟩

/-- **C8**: `new` issues exactly the two startup advisory commands
(version check, blacklist check); an `UpdateFound` result (possibly
absent, when the check failed) only sets `update_found` and a
`BlacklistChecked` result only sets `blacklist_info` — each returns no
further command and leaves every other field, including the
configuration store and the bridge, unchanged; and the blacklist fix
command is returned exactly for the `BlacklistFixPressed` message. -/
theorem advisory_tasks_one_shot :
    MainState.new.2 = [Cmd.checkUpdates, Cmd.checkBlacklist] ∧
    (∀ (s : MainState) (v : Option String),
        s.update (Message.UpdateFound v) = ({ s with update_found := v }, [])) ∧
    (∀ (s : MainState) (i : BlacklistResult),
        s.update (Message.BlacklistChecked i) = ({ s with blacklist_info := i }, [])) ∧
    (∀ (s : MainState) (m : Message),
        Cmd.updateBlacklist ∈ (s.update m).2 ↔ m = Message.BlacklistFixPressed) := by
  refine ⟨rfl, fun s v => rfl, fun s i => rfl, fun s m => ?_⟩
  cases m with
  | Tick =>
      simp only [MainState.update]
      split <;> simp
  | BlacklistFixPressed => simp [MainState.update]
  | SettingsPressed => simp [MainState.update]
  | Dot => simp [MainState.update]
  | AddressChange value => simp [MainState.update]
  | UpdateFound version => simp [MainState.update]
  | UpdatePressed => simp [MainState.update]
  | BlacklistChecked info => simp [MainState.update]
  | JoyconRotate sn dir => simp [MainState.update]
  | JoyconScale sn v => simp [MainState.update]
  | SettingsResetToggled b => simp [MainState.update]
  | SettingsIdsToggled b => simp [MainState.update]

/-- **C10**: `server_address` is rendered once by `new` from the
configuration's socket address; an `AddressChange` message rewrites
only the configuration's `address` string (returning no command), and
no message sequence whatsoever — in particular no sequence of
`AddressChange` messages — ever changes the displayed
`server_address` after startup. -/
theorem server_address_set_only_at_startup :
    MainState.new.1.server_address = WranglerSettings.default.get_socket_address ∧
    (∀ (s : MainState) (a : String),
        s.update (Message.AddressChange a) =
          ({ s with settings := { s.settings with address := a } }, [])) ∧
    (∀ (s : MainState) (a : String),
        ((s.update (Message.AddressChange a)).1).settings.address = a) ∧
    (∀ ms : List Message,
        (runMessages MainState.new.1 ms).server_address = MainState.new.1.server_address) :=
  ⟨rfl, fun _ _ => rfl, fun _ _ => rfl,
    fun ms => runMessages_server_address_eq ms MainState.new.1⟩

/-- **C1**: for every status and configuration, the yaw entry the box
view presents is the negated raw yaw cast to `i32` and normalized by
`rem_euclid` into `[0, 360)` (always in that range), and the SVG is
drawn with the configured rotation offset; for raw orientation
`(10, 20, 30)` under configuration `{offset: 90, scale: 1.0}`, the box
shows yaw `330` (i.e. `-30` normalized) and SVG rotation `90`, while
the status list handed to the (pure) view still stores the raw triple
`(10, 20, 30)`. -/
theorem presented_yaw_negated_and_normalized :
    (∀ (ws : WranglerSettings) (st : Status),
        (single_box_view st (ws.joycon_scale_get st.serial_number)
            (ws.joycon_rotation_get st.serial_number)).values.lookup "Yaw"
          = some (remEuclid (asI32 (-st.rotation.2.2)) 360) ∧
        (single_box_view st (ws.joycon_scale_get st.serial_number)
            (ws.joycon_rotation_get st.serial_number)).svgRotation
          = ws.joycon_rotation_get st.serial_number) ∧
    (∀ val : ℚ, 0 ≤ remEuclid (asI32 val) 360 ∧ remEuclid (asI32 val) 360 < 360) ∧
    boxesC1.view wsC1 =
      [{ values := [("Roll", 10), ("Pitch", 20), ("Yaw", 330)],
         svgRotation := 90, scaleShown := 1, serial := "sn1" }] ∧
    boxesC1.statuses = [stC1] ∧
    stC1.rotation = (10, 20, 30) := by
  refine ⟨fun ws st => ⟨rfl, rfl⟩,
    fun val => ⟨remEuclid_nonneg _, remEuclid_lt_360 _⟩, ?_, rfl, rfl⟩
  show [single_box_view stC1 (wsC1.joycon_scale_get "sn1") (wsC1.joycon_rotation_get "sn1")]
      = _
  have hrot : wsC1.joycon_rotation_get "sn1" = 90 := by decide
  have hsc : wsC1.joycon_scale_get "sn1" = clampScale 1 := by
    simp [wsC1, WranglerSettings.joycon_scale_get, WranglerSettings.joycon_scale_set,
      WranglerSettings.joycon_rotation_add]
  rw [hrot, hsc]
  have hbox : single_box_view stC1 (clampScale 1) 90 =
      { values := [("Roll", 10), ("Pitch", 20), ("Yaw", 330)],
        svgRotation := 90, scaleShown := 1, serial := "sn1" } :=
    boxView_ext _ _ (by decide) (by decide) (by norm_num [single_box_view, clampScale])
      (by decide)
  rw [hbox]

/-- **C9**: the needle vector is built with exactly 360 entries; for
every (rational-modelled) float component `val`, the index
`(val as i32).rem_euclid(360)` lies in `[0, 360)`, the `needles.get`
lookup at that index always returns `Some` — namely the needle built
for that very degree — so the `unwrap_or_else` fallback to
`&needles[0]` is unreachable and the lookup never panics. -/
theorem needle_lookup_never_falls_back :
    JoyconBoxes.default.needles.length = 360 ∧
    (∀ val : ℚ, 0 ≤ needleIndex val ∧ needleIndex val < 360) ∧
    (∀ val : ℚ,
        JoyconBoxes.default.needles[(needleIndex val).toNat]?
          = some (Needle.new (needleIndex val))) ∧
    (∀ val : ℚ,
        needleLookup JoyconBoxes.default.needles (needleIndex val).toNat
          = Needle.new (needleIndex val)) := by
  have hbounds : ∀ val : ℚ, 0 ≤ needleIndex val ∧ needleIndex val < 360 :=
    fun val => ⟨remEuclid_nonneg _, remEuclid_lt_360 _⟩
  have hget : ∀ val : ℚ,
      JoyconBoxes.default.needles[(needleIndex val).toNat]?
        = some (Needle.new (needleIndex val)) := by
    intro val
    have h0 := (hbounds val).1
    have h1 := (hbounds val).2
    have hlt : (needleIndex val).toNat < 360 := by omega
    show ((List.range 360).map (fun n => Needle.new (Int.ofNat n)))[(needleIndex val).toNat]?
        = _
    rw [List.getElem?_map, List.getElem?_range hlt]
    have hcast : Int.ofNat (needleIndex val).toNat = needleIndex val :=
      Int.toNat_of_nonneg h0
    show some (Needle.new (Int.ofNat (needleIndex val).toNat))
        = some (Needle.new (needleIndex val))
    rw [hcast]
  refine ⟨by simp [JoyconBoxes.default], hbounds, hget, fun val => ?_⟩
  unfold needleLookup
  rw [hget val]

end Wrangler
